import Mathlib

/-
Verification of the authentication core of the Turnus repository
(JWTConfig/app2.py): credential store (register / login credential check),
session token authority (JWT issue / validate), the token_required guard,
and logout. The database is modelled as a list of user rows, the external
store round trips as an event trace with failure injection, and the JWT
library symbolically (a MAC is a deterministic, collision-free function of
the secret and the payload).
-/

namespace Turnus

/-- Model of a werkzeug password hash as stored by generate_password_hash:
one-way and salted in reality; symbolically it records the password it was
derived from, and check_password_hash succeeds exactly on that password. -/
structure PwHash where
  ofPassword : String
deriving Repr, DecidableEq

/-- werkzeug.security.generate_password_hash (symbolic model). -/
def generate_password_hash (p : String) : PwHash := ⟨p⟩

/-- werkzeug.security.check_password_hash (symbolic model). -/
def check_password_hash (h : PwHash) (p : String) : Bool :=
  h.ofPassword == p

/-- A row of the TurnusUsers table: id, username, password hash. -/
structure UserRec where
  id : Nat
  username : String
  password : PwHash
deriving Repr, DecidableEq

/-- JWT payload built at login: the user id and the absolute expiry
timestamp (seconds). -/
structure Payload where
  user_id : Nat
  exp : Nat
deriving Repr, DecidableEq

/-- Symbolic HMAC output: a deterministic function of the secret and the
signed payload, with no collisions across distinct inputs. -/
structure Sig where
  macSecret : String
  macPayload : Payload
deriving Repr, DecidableEq

/-- Symbolic HMAC-SHA256 signature of a payload under a secret. -/
def hmacSign (secret : String) (p : Payload) : Sig := ⟨secret, p⟩

/-- A token string: either a structurally well-formed signed token
(payload plus signature bytes, possibly tampered with) or a string that
does not parse as a JWT at all. -/
inductive Token where
  | signed (payload : Payload) (sig : Sig)
  | malformed (raw : String)
deriving Repr, DecidableEq

/-- jwt.encode: serialize the payload and attach its HMAC signature. -/
def jwtEncode (p : Payload) (secret : String) : Token :=
  .signed p (hmacSign secret p)

/-- Outcome of jwt.decode: success with the payload, ExpiredSignatureError,
or InvalidTokenError. -/
inductive DecodeResult where
  | ok (payload : Payload)
  | expired
  | invalid
deriving Repr, DecidableEq

/-- jwt.decode under the process secret at current time now: a malformed
string or a signature mismatch raises InvalidTokenError; with an intact
signature, an exp claim at or before now raises ExpiredSignatureError;
otherwise the payload is returned. -/
def jwtDecode (t : Token) (secret : String) (now : Nat) : DecodeResult :=
  match t with
  | .malformed _ => .invalid
  | .signed p sig =>
    if sig ≠ hmacSign secret p then .invalid
    else if p.exp ≤ now then .expired
    else .ok p

/-- The token issuance performed at successful login: payload holds the
user id and exp = utcnow + timedelta(hours=1), signed with SECRET_KEY. -/
def issue (uid : Nat) (secret : String) (now : Nat) : Token :=
  jwtEncode ⟨uid, now + 3600⟩ secret

/-- An HTTP response of this app: a redirect (optionally setting or
deleting the token cookie), a plain text body with a status code, or a
rendered template page. -/
inductive Response where
  | redirect (target : String) (setCookie : Option Token) (deleteCookie : Bool)
  | text (body : String) (status : Nat)
  | page (template : String) (user_id : Option Nat)
deriving Repr, DecidableEq

/-- Events of one request against the external store: connection
acquisition and release, and the SQL statements executed. -/
inductive DbEv where
  | connect
  | select
  | insertRow
  | commit
  | closeConn
deriving Repr, DecidableEq

/-- SELECT * FROM TurnusUsers WHERE username = %s, then fetchone(). -/
def findUser (db : List UserRec) (u : String) : Option UserRec :=
  db.find? (fun r => r.username == u)

/-- Outcome of one run of the register handler: the store after the call,
the response (none when a store statement raised and the exception
propagated out of the handler), and the store event trace. -/
structure RegOutcome where
  db : List UserRec
  resp : Option Response
  trace : List DbEv
deriving Repr, DecidableEq

/-- POST /register: connect, SELECT for the username, 409 when a row is
found, otherwise INSERT the hashed row, commit and redirect to login.
nextId is the id the store assigns to the inserted row; selOk and insOk
inject failures of the SELECT and INSERT statements (a failing statement
raises, and the handler has no try/finally, so it aborts at that point). -/
def register (db : List UserRec) (nextId : Nat) (username password : String)
    (selOk insOk : Bool) : RegOutcome :=
  if !selOk then
    { db := db, resp := none, trace := [.connect, .select] }
  else if (findUser db username).isSome then
    { db := db, resp := some (.text "User already exists" 409),
      trace := [.connect, .select, .closeConn] }
  else if !insOk then
    { db := db, resp := none, trace := [.connect, .select, .insertRow] }
  else
    { db := db ++ [⟨nextId, username, generate_password_hash password⟩],
      resp := some (.redirect "login" none false),
      trace := [.connect, .select, .insertRow, .commit, .closeConn] }

/-- Outcome of one run of the login handler: the response (none when the
SELECT raised) and the store event trace. The store itself is read-only
here. -/
structure LoginOutcome where
  resp : Option Response
  trace : List DbEv
deriving Repr, DecidableEq

/-- POST /login: connect, SELECT for the username, close the connection,
then 401 unless a row was found and its hash checks against the submitted
password; on success issue a token for the row id at time now, set it as
the token cookie and redirect to the protected page. selOk injects a
failure of the SELECT statement. -/
def login (db : List UserRec) (username password : String) (secret : String)
    (now : Nat) (selOk : Bool) : LoginOutcome :=
  if !selOk then
    { resp := none, trace := [.connect, .select] }
  else
    match findUser db username with
    | none =>
      { resp := some (.text "Invalid credentials" 401),
        trace := [.connect, .select, .closeConn] }
    | some user =>
      if !check_password_hash user.password password then
        { resp := some (.text "Invalid credentials" 401),
          trace := [.connect, .select, .closeConn] }
      else
        { resp := some (.redirect "protected" (some (issue user.id secret now)) false),
          trace := [.connect, .select, .closeConn] }

/-- The credential check that POST /login performs before issuing a token:
the id of the matching row when the username exists and the hash check
passes, none otherwise. -/
def verify (db : List UserRec) (username password : String) : Option Nat :=
  match findUser db username with
  | none => none
  | some user =>
    if check_password_hash user.password password then some user.id else none

/-- The token_required decorator around a protected handler: read the token
cookie; redirect to login when it is absent; decode it, redirecting to
login on ExpiredSignatureError or InvalidTokenError; on success run the
handler with the decoded user id attached to the request. -/
def token_required (cookie : Option Token) (secret : String) (now : Nat)
    (handler : Nat → Response) : Response :=
  match cookie with
  | none => .redirect "login" none false
  | some t =>
    match jwtDecode t secret now with
    | .ok p => handler p.user_id
    | .expired => .redirect "login" none false
    | .invalid => .redirect "login" none false

/-- Process-wide server state: the signing secret loaded at startup and the
durable user table. -/
structure ServerState where
  secret : String
  users : List UserRec
deriving Repr, DecidableEq

/-- GET /logout: redirect to login with the token cookie deleted; no server
state is read or written. -/
def logout (s : ServerState) : ServerState × Response :=
  (s, .redirect "login" none true)

/- ------------------------- helper lemmas ------------------------- -/

theorem findUser_append_single (db : List UserRec) (r : UserRec) (u : String)
    (h : findUser db u = none) :
    findUser (db ++ [r]) u = if r.username == u then some r else none := by
  induction db with
  | nil =>
    unfold findUser
    rw [List.nil_append, List.find?]
    cases hb : r.username == u <;> simp [hb]
  | cons a l ih =>
    unfold findUser at h ⊢
    rw [List.cons_append, List.find?]
    rw [List.find?] at h
    cases ha : (a.username == u) with
    | true => simp [ha] at h
    | false =>
      simp only [ha] at h ⊢
      exact ih h

theorem findUser_isSome_iff (db : List UserRec) (u : String) :
    (findUser db u).isSome = true ↔ ∃ r ∈ db, r.username = u := by
  unfold findUser
  rw [List.find?_isSome]
  constructor
  · rintro ⟨r, hr, hb⟩
    exact ⟨r, hr, by simpa using hb⟩
  · rintro ⟨r, hr, hb⟩
    exact ⟨r, hr, by simpa using hb⟩

theorem jwtDecode_issue_of_lt (uid : Nat) (secret : String) (now t : Nat)
    (h : t < now + 3600) :
    jwtDecode (issue uid secret now) secret t = .ok ⟨uid, now + 3600⟩ := by
  simp only [issue, jwtEncode, jwtDecode]
  rw [if_neg (by simp), if_neg (by omega)]

/- ------------------------- claim theorems ------------------------- -/

/-- C1: for every username u with no existing record and every password p,
register(u, p) redirects to login after inserting a row holding the hash of
p, and verify(u, p) against the resulting store yields the id assigned to
the new row. -/
theorem register_then_verify_yields_new_id
    (db : List UserRec) (nextId : Nat) (u p : String)
    (h : findUser db u = none) :
    (register db nextId u p true true).resp
      = some (.redirect "login" none false) ∧
    (register db nextId u p true true).db
      = db ++ [⟨nextId, u, generate_password_hash p⟩] ∧
    verify (register db nextId u p true true).db u p = some nextId := by
  have hfind := findUser_append_single db ⟨nextId, u, generate_password_hash p⟩ u h
  rw [if_pos (by simp)] at hfind
  have hreg : register db nextId u p true true
      = { db := db ++ [⟨nextId, u, generate_password_hash p⟩],
          resp := some (.redirect "login" none false),
          trace := [.connect, .select, .insertRow, .commit, .closeConn] } := by
    simp [register, h]
  rw [hreg]
  refine ⟨rfl, rfl, ?_⟩
  simp only [verify]
  rw [hfind]
  simp [check_password_hash, generate_password_hash]

/-- Witness for C1 at a concrete input. -/
theorem register_then_verify_yields_new_id_witness :
    (register [] 1 "alice" "pw" true true).resp
      = some (.redirect "login" none false) ∧
    (register [] 1 "alice" "pw" true true).db
      = [] ++ [⟨1, "alice", generate_password_hash "pw"⟩] ∧
    verify (register [] 1 "alice" "pw" true true).db "alice" "pw" = some 1 :=
  register_then_verify_yields_new_id [] 1 "alice" "pw" rfl

/-- C2: a token produced by issue(uid) is accepted by jwt.decode under the
same secret at any time strictly before the embedded expiry, and the
decoded user_id equals uid. -/
theorem issue_then_validate_ok (uid : Nat) (secret : String) (now t : Nat)
    (h : t < now + 3600) :
    jwtDecode (issue uid secret now) secret t = .ok ⟨uid, now + 3600⟩ :=
  jwtDecode_issue_of_lt uid secret now t h

/-- Witness for C2 at a concrete input. -/
theorem issue_then_validate_ok_witness :
    jwtDecode (issue 7 "s" 0) "s" 10 = .ok ⟨7, 3600⟩ :=
  issue_then_validate_ok 7 "s" 0 10 (by decide)

/-- C3: the embedded expiry of an issued token equals issuance time plus
3600 seconds, and a correctly signed token validated at or after that
expiry fails with the expired outcome, not the invalid one. -/
theorem issued_token_expiry_and_expired_outcome
    (uid : Nat) (secret : String) (now t : Nat) (h : now + 3600 ≤ t) :
    issue uid secret now
      = Token.signed ⟨uid, now + 3600⟩ (hmacSign secret ⟨uid, now + 3600⟩) ∧
    jwtDecode (issue uid secret now) secret t = .expired := by
  refine ⟨rfl, ?_⟩
  simp only [issue, jwtEncode, jwtDecode]
  rw [if_neg (by simp), if_pos h]

/-- Witness for C3 at a concrete input. -/
theorem issued_token_expiry_and_expired_outcome_witness :
    issue 7 "s" 0 = Token.signed ⟨7, 3600⟩ (hmacSign "s" ⟨7, 3600⟩) ∧
    jwtDecode (issue 7 "s" 0) "s" 3600 = .expired :=
  issued_token_expiry_and_expired_outcome 7 "s" 0 3600 (by decide)

/-- C4: a token whose signature does not verify under the process secret,
or which is structurally malformed, decodes to the invalid outcome, never
to expired or success; in particular a token whose payload was altered
after issuance while keeping the original signature is invalid. -/
theorem bad_signature_or_malformed_invalid (secret : String) (now : Nat) :
    (∀ t : Token,
      (∀ p sig, t = Token.signed p sig → sig ≠ hmacSign secret p) →
      jwtDecode t secret now = .invalid) ∧
    (∀ p p' : Payload, p ≠ p' →
      jwtDecode (Token.signed p' (hmacSign secret p)) secret now = .invalid) := by
  constructor
  · intro t ht
    match t with
    | .malformed s => rfl
    | .signed p sig =>
      simp only [jwtDecode]
      rw [if_pos (ht p sig rfl)]
  · intro p p' hne
    have hs : hmacSign secret p ≠ hmacSign secret p' := by
      intro hc
      exact hne (congrArg Sig.macPayload hc)
    simp only [jwtDecode]
    rw [if_pos hs]

/-- Witness for C4 at concrete inputs: a malformed string and a token whose
payload was altered under its original signature. -/
theorem bad_signature_or_malformed_invalid_witness :
    jwtDecode (Token.malformed "junk") "s" 0 = .invalid ∧
    jwtDecode (Token.signed ⟨2, 99⟩ (hmacSign "s" ⟨1, 99⟩)) "s" 0 = .invalid := by
  constructor
  · exact (bad_signature_or_malformed_invalid "s" 0).1 _
      (fun p sig hp => Token.noConfusion hp)
  · exact (bad_signature_or_malformed_invalid "s" 0).2 ⟨1, 99⟩ ⟨2, 99⟩ (by decide)

/-- C5: with no token cookie the guard redirects to login; on an expired or
invalid decode outcome it redirects to login, and the two failure kinds
yield equal responses; only on a successful decode does the wrapped handler
run, applied to the decoded user_id. -/
theorem guard_dispatch (secret : String) (now : Nat) (handler : Nat → Response) :
    token_required none secret now handler = .redirect "login" none false ∧
    (∀ t, jwtDecode t secret now = .expired →
      token_required (some t) secret now handler = .redirect "login" none false) ∧
    (∀ t, jwtDecode t secret now = .invalid →
      token_required (some t) secret now handler = .redirect "login" none false) ∧
    (∀ t t', jwtDecode t secret now = .expired →
      jwtDecode t' secret now = .invalid →
      token_required (some t) secret now handler
        = token_required (some t') secret now handler) ∧
    (∀ t p, jwtDecode t secret now = .ok p →
      token_required (some t) secret now handler = handler p.user_id) := by
  refine ⟨rfl, ?_, ?_, ?_, ?_⟩
  · intro t h
    simp only [token_required, h]
  · intro t h
    simp only [token_required, h]
  · intro t t' h h'
    simp only [token_required, h, h']
  · intro t p h
    simp only [token_required, h]

/-- Witness for C5 at concrete inputs: an expired token, a malformed token
and a fresh token, against a concrete handler. -/
theorem guard_dispatch_witness :
    token_required (some (Token.signed ⟨1, 5⟩ (hmacSign "s" ⟨1, 5⟩))) "s" 10
        (fun uid => .page "protected" (some uid)) = .redirect "login" none false ∧
    token_required (some (Token.malformed "junk")) "s" 10
        (fun uid => .page "protected" (some uid)) = .redirect "login" none false ∧
    token_required (some (Token.signed ⟨1, 99⟩ (hmacSign "s" ⟨1, 99⟩))) "s" 10
        (fun uid => .page "protected" (some uid)) = .page "protected" (some 1) := by
  refine ⟨?_, ?_, ?_⟩
  · exact (guard_dispatch "s" 10 _).2.1 _ (by decide)
  · exact (guard_dispatch "s" 10 _).2.2.1 _ (by decide)
  · exact (guard_dispatch "s" 10 _).2.2.2.2 _ ⟨1, 99⟩ (by decide)

/-- C6: a login with a username matching no row and a login with an
existing username whose password fails the hash check return identical
outcomes, both the plain text body Invalid credentials with status 401. -/
theorem login_failures_indistinguishable
    (db : List UserRec) (u p uB pB : String) (r : UserRec)
    (secret : String) (now : Nat)
    (h1 : findUser db u = none)
    (h2 : findUser db uB = some r)
    (h3 : check_password_hash r.password pB = false) :
    login db u p secret now true = login db uB pB secret now true ∧
    (login db u p secret now true).resp
      = some (.text "Invalid credentials" 401) := by
  simp only [login, h1, h2, h3]
  exact ⟨rfl, rfl⟩

/-- Witness for C6 at a concrete input: a store holding bob, a login as the
absent alice and a login as bob with the wrong password. -/
theorem login_failures_indistinguishable_witness :
    login [⟨1, "bob", generate_password_hash "pw"⟩] "alice" "x" "s" 0 true
      = login [⟨1, "bob", generate_password_hash "pw"⟩] "bob" "wrong" "s" 0 true ∧
    (login [⟨1, "bob", generate_password_hash "pw"⟩] "alice" "x" "s" 0 true).resp
      = some (.text "Invalid credentials" 401) :=
  login_failures_indistinguishable _ "alice" "x" "bob" "wrong"
    ⟨1, "bob", generate_password_hash "pw"⟩ "s" 0 rfl rfl rfl

/-- C8: logout leaves the server state, hence the signing secret, untouched
and only answers a redirect that deletes the cookie on the client; the
validate outcome of any token at any time is unchanged by it, and in
particular an unexpired honestly issued token is still accepted. -/
theorem logout_does_not_revoke (s : ServerState) :
    (logout s).1 = s ∧
    (∀ t now, jwtDecode t (logout s).1.secret now = jwtDecode t s.secret now) ∧
    (logout s).2 = .redirect "login" none true ∧
    (∀ uid issuedAt now, now < issuedAt + 3600 →
      jwtDecode (issue uid s.secret issuedAt) (logout s).1.secret now
        = .ok ⟨uid, issuedAt + 3600⟩) := by
  refine ⟨rfl, fun t now => rfl, rfl, fun uid issuedAt now h => ?_⟩
  exact jwtDecode_issue_of_lt uid s.secret issuedAt now h

/-- Witness for C8 at a concrete input. -/
theorem logout_does_not_revoke_witness :
    (logout ⟨"s", []⟩).1 = ⟨"s", []⟩ ∧
    jwtDecode (issue 7 "s" 0) (logout (⟨"s", []⟩ : ServerState)).1.secret 10
      = .ok ⟨7, 3600⟩ :=
  ⟨(logout_does_not_revoke ⟨"s", []⟩).1,
   (logout_does_not_revoke ⟨"s", []⟩).2.2.2 7 0 10 (by decide)⟩

/-- C7: register answers 409 with the plain text body exactly when a row
with the exact same username string is already present; otherwise it
appends the hashed row and redirects to login. -/
theorem register_conflict_characterization
    (db : List UserRec) (nextId : Nat) (u p : String) :
    ((register db nextId u p true true).resp
        = some (.text "User already exists" 409) ↔ ∃ r ∈ db, r.username = u) ∧
    ((∃ r ∈ db, r.username = u) →
      register db nextId u p true true
        = ⟨db, some (.text "User already exists" 409),
            [.connect, .select, .closeConn]⟩) ∧
    ((¬ ∃ r ∈ db, r.username = u) →
      (register db nextId u p true true).db
          = db ++ [⟨nextId, u, generate_password_hash p⟩] ∧
      (register db nextId u p true true).resp
          = some (.redirect "login" none false)) := by
  by_cases hmem : ∃ r ∈ db, r.username = u
  · have hs : (findUser db u).isSome = true := (findUser_isSome_iff db u).2 hmem
    simp [register, hs, hmem]
  · have hs : (findUser db u).isSome = false := by
      rw [Bool.eq_false_iff]
      intro hc
      exact hmem ((findUser_isSome_iff db u).1 hc)
    simp [register, hs, hmem]

/-- Witness for C7 at concrete inputs: a duplicate registration of bob and
a fresh registration of alice against the same store. -/
theorem register_conflict_characterization_witness :
    register [⟨1, "bob", generate_password_hash "pw"⟩] 2 "bob" "x" true true
      = ⟨[⟨1, "bob", generate_password_hash "pw"⟩],
          some (.text "User already exists" 409),
          [.connect, .select, .closeConn]⟩ ∧
    (register [⟨1, "bob", generate_password_hash "pw"⟩] 2 "alice" "x" true true).resp
      = some (.redirect "login" none false) :=
  ⟨(register_conflict_characterization _ 2 "bob" "x").2.1
      ⟨⟨1, "bob", generate_password_hash "pw"⟩, by simp, rfl⟩,
   ((register_conflict_characterization _ 2 "alice" "x").2.2 (by decide)).2⟩

/-- C9 counterexample: when the SELECT statement of register raises after
the connection was acquired, the handler propagates the exception with the
connection still open — no release happens on that exit path. -/
theorem register_conn_leak_on_select_failure :
    DbEv.connect ∈ (register [] 1 "alice" "pw" false true).trace ∧
    (register [] 1 "alice" "pw" false true).resp = none ∧
    DbEv.closeConn ∉ (register [] 1 "alice" "pw" false true).trace := by
  refine ⟨?_, rfl, ?_⟩ <;> decide

/-- C9 amended: on every exit path of register and login on which no store
statement raises (the handler returns a response), the connection acquired
at the start is closed before the handler returns. -/
theorem conn_closed_unless_store_raises
    (db : List UserRec) (nextId : Nat) (u p secret : String) (now : Nat)
    (selOk insOk : Bool) :
    ((register db nextId u p selOk insOk).resp.isSome = true →
      DbEv.closeConn ∈ (register db nextId u p selOk insOk).trace) ∧
    ((login db u p secret now selOk).resp.isSome = true →
      DbEv.closeConn ∈ (login db u p secret now selOk).trace) := by
  constructor
  · intro h
    cases selOk with
    | false => simp [register] at h
    | true =>
      by_cases hf : (findUser db u).isSome
      · simp [register, hf]
      · cases insOk with
        | false => simp [register, hf] at h
        | true => simp [register, hf]
  · intro h
    cases selOk with
    | false => simp [login] at h
    | true =>
      cases hf : findUser db u with
      | none => simp [login, hf]
      | some user =>
        by_cases hc : check_password_hash user.password p
        · simp [login, hf, hc]
        · simp [login, hf, hc]

/-- Witness for C9 amended at concrete inputs. -/
theorem conn_closed_unless_store_raises_witness :
    DbEv.closeConn ∈ (register [] 1 "alice" "pw" true true).trace ∧
    DbEv.closeConn ∈ (login [] "alice" "pw" "s" 0 true).trace :=
  ⟨(conn_closed_unless_store_raises [] 1 "alice" "pw" "s" 0 true true).1 rfl,
   (conn_closed_unless_store_raises [] 1 "alice" "pw" "s" 0 true true).2 rfl⟩

/-- C10: a register call that answers the duplicate username 409 leaves the
store exactly as it was and executes neither the INSERT statement nor a
commit before returning. -/
theorem register_conflict_is_atomic
    (db : List UserRec) (nextId : Nat) (u p : String) (selOk insOk : Bool)
    (h : (register db nextId u p selOk insOk).resp
        = some (.text "User already exists" 409)) :
    (register db nextId u p selOk insOk).db = db ∧
    DbEv.insertRow ∉ (register db nextId u p selOk insOk).trace ∧
    DbEv.commit ∉ (register db nextId u p selOk insOk).trace := by
  cases selOk with
  | false => simp [register] at h
  | true =>
    by_cases hf : (findUser db u).isSome
    · simp [register, hf]
    · cases insOk with
      | false => simp [register, hf] at h
      | true => simp [register, hf] at h

/-- Witness for C10 at a concrete input: the duplicate registration of bob. -/
theorem register_conflict_is_atomic_witness :
    (register [⟨1, "bob", generate_password_hash "pw"⟩] 2 "bob" "x" true true).db
      = [⟨1, "bob", generate_password_hash "pw"⟩] ∧
    DbEv.insertRow
      ∉ (register [⟨1, "bob", generate_password_hash "pw"⟩] 2 "bob" "x" true true).trace ∧
    DbEv.commit
      ∉ (register [⟨1, "bob", generate_password_hash "pw"⟩] 2 "bob" "x" true true).trace :=
  register_conflict_is_atomic _ 2 "bob" "x" true true (by decide)

end Turnus
